import Mathlib

set_option linter.unusedVariables false

/-!
Verification development for the outbound-redis connection-lifecycle /
protocol-adaptation layer and the libsql relational adapter.

Shallow embedding conventions:
* Pure Rust functions become Lean functions with the source names.
* The stateful host component (OutboundRedis) is explicit state passing:
  every operation takes the component state and returns a result together
  with the new state when it can mutate the connection table.
* The external redis driver is out of scope (spec section 1); each driver
  call site takes the driver's reply for that one command as an explicit
  oracle argument of the operation.
* Fallible code returns Except.
-/

namespace Spin

/-- Driver reply shape of the redis crate (external driver boundary):
nil, acknowledgement, integer, byte data, nested bulk, status string.
Byte sequences are lists of naturals (byte values). -/
inductive Value : Type
  | Nil : Value
  | Okay : Value
  | Int : Int → Value
  | Data : List Nat → Value
  | Bulk : List Value → Value
  | Status : String → Value

/-- Typed result leaf of the v2 surface (spin_world v2 redis-result as used by
the source: the code constructs Int64, Binary and Status leaves). -/
inductive RedisResult : Type
  | Int64 : Int → RedisResult
  | Binary : List Nat → RedisResult
  | Status : String → RedisResult
deriving DecidableEq

/-- Call parameter of the v2 surface (spin_world v2 redis-parameter). -/
inductive RedisParameter : Type
  | Int64 : Int → RedisParameter
  | Binary : List Nat → RedisParameter
deriving DecidableEq

mutual
/-- The inner append of RedisResults::from_redis_value: depth-first walk of a
driver reply, accumulating typed leaves at the end of the accumulator. -/
def append : List RedisResult → Value → List RedisResult
  | values, .Nil => values
  | values, .Okay => values
  | values, .Int v => values ++ [RedisResult.Int64 v]
  | values, .Data bytes => values ++ [RedisResult.Binary bytes]
  | values, .Bulk bulk => appendList values bulk
  | values, .Status message => values ++ [RedisResult.Status message]

/-- The for_each over a bulk reply inside append. -/
def appendList : List RedisResult → List Value → List RedisResult
  | values, [] => values
  | values, v :: rest => appendList (append values v) rest
end

/-- RedisResults::from_redis_value: flatten a driver reply into the ordered
sequence of typed leaves (the source starts from an empty Vec). -/
def from_redis_value (value : Value) : List RedisResult :=
  append [] value

end Spin

namespace Spin

/-- Column/parameter value of the v2 sqlite surface (spin_world v2 sqlite
Value; the five variants are exactly the arms matched by the source). The
real payload is an IEEE-754 double; the adapter only transports it, so it is
embedded as its opaque 64-bit pattern. -/
structure Float64 where
  bits : Nat
deriving DecidableEq

/-- spin_world v2 sqlite::Value - the typed column value. -/
inductive SqliteValue : Type
  | Null : SqliteValue
  | Integer : Int → SqliteValue
  | Real : Float64 → SqliteValue
  | Text : String → SqliteValue
  | Blob : List Nat → SqliteValue
deriving DecidableEq

/-- libsql::Value - the external driver's column value (five variants,
exactly the arms matched by the source). -/
inductive LibsqlValue : Type
  | Null : LibsqlValue
  | Integer : Int → LibsqlValue
  | Real : Float64 → LibsqlValue
  | Text : String → LibsqlValue
  | Blob : List Nat → LibsqlValue
deriving DecidableEq

/-- convert_value from src/crates/sqlite-libsql/src/lib.rs: driver column
value to typed column value. -/
def convert_value : LibsqlValue → SqliteValue
  | .Null => .Null
  | .Integer value => .Integer value
  | .Real value => .Real value
  | .Text value => .Text value
  | .Blob value => .Blob value

/-- convert_parameters from src/crates/sqlite-libsql/src/lib.rs: typed
parameters to driver values, element by element. -/
def convert_parameters (parameters : List SqliteValue) : List LibsqlValue :=
  parameters.map (fun v =>
    match v with
    | .Integer value => LibsqlValue.Integer value
    | .Real value => LibsqlValue.Real value
    | .Text t => LibsqlValue.Text t
    | .Blob b => LibsqlValue.Blob b
    | .Null => LibsqlValue.Null)

end Spin

namespace Spin

/-- A live driver connection object. The redis driver is an external
collaborator (spec section 1); at this layer a connection is an opaque
session identity, so it is embedded as a bare natural. -/
abbrev Connection : Type := Nat

/-- Modelled from the spec: the allow-list policy (spin_outbound_networking
AllowedHostsConfig, not under src/). Section 4.1 describes the checker as a
pure predicate over (address, scheme, policy) with no other observable
structure, so the policy is embedded as that predicate, scheme first. -/
abbrev AllowedHostsConfig : Type := String → String → Bool

/-- Modelled from the spec: spin_outbound_networking::check_url (not under
src/); section 4.1: pure, no I/O, decides admit/deny for an address against
the declared scheme and the loaded policy. -/
def check_url (address : String) (scheme : String)
    (cfg : AllowedHostsConfig) : Bool :=
  cfg scheme address

/-- Modelled from the spec: the capacity-bounded connection table
(crates/table, not under src/). Section 4.2: an integer-handle slot map with
push / get_mut / remove. Embedded as a capacity plus an association list
from handle to value, newest entry first. -/
structure Table (α : Type) where
  capacity : Nat
  entries : List (Nat × α)

/-- Modelled from the spec: Table::new(capacity) starts empty. -/
def Table.new (α : Type) (capacity : Nat) : Table α :=
  { capacity := capacity, entries := [] }

/-- The handles currently live in the table. -/
def Table.keys {α : Type} (t : Table α) : List Nat :=
  t.entries.map Prod.fst

/-- Modelled from the spec: push allocates the lowest available slot
(section 4.2). Among handles 0 .. n (n live handles) at least one is free,
so the search range is keys.length + 1. -/
def lowestFree (keys : List Nat) : Nat :=
  ((List.range (keys.length + 1)).find? (fun n => !(keys.contains n))).getD 0

/-- Modelled from the spec: Table::push rejects when live-count equals
capacity, without mutating state; otherwise allocates the lowest available
slot and returns its handle (section 4.2). -/
def Table.push {α : Type} (t : Table α) (v : α) : Option (Nat × Table α) :=
  if t.entries.length = t.capacity then
    none
  else
    let key := lowestFree t.keys
    some (key, { t with entries := (key, v) :: t.entries })

/-- Modelled from the spec: Table::get_mut is lookup by handle
(section 4.2). The embedding is pure, so it returns the stored value. -/
def Table.get? {α : Type} (t : Table α) (key : Nat) : Option α :=
  (t.entries.find? (fun e => e.fst == key)).map Prod.snd

/-- Modelled from the spec: Table::remove always succeeds and is a no-op if
the handle is absent (section 4.2). -/
def Table.remove {α : Type} (t : Table α) (key : Nat) : Table α :=
  { t with entries := t.entries.filter (fun e => e.fst != key) }

/-- Modelled from the spec: the v2 error vocabulary (spin_world v2 redis
Error, not under src/). Section 6 lists exactly InvalidAddress,
TooManyConnections, TypeError and Other(message); these are also exactly the
constructors the source uses. -/
inductive Error : Type
  | invalidAddress : Error
  | tooManyConnections : Error
  | typeError : Error
  | other : String → Error
deriving DecidableEq

/-- Modelled from the spec: the Display rendering of the v2 error enum (the
generated impl is not under src/; the source feeds an Error back through
other_error, which stringifies it). An other-error renders as its carried
message, the unit variants as their names. -/
def Error.message : Error → String
  | .invalidAddress => "invalid address"
  | .tooManyConnections => "too many connections"
  | .typeError => "type error"
  | .other m => m

/-- True exactly on the Other catch-all variant. -/
def Error.isOther : Error → Bool
  | .other _ => true
  | _ => false

/-- Error kind reported by the external redis driver; the source only
inspects whether the kind is TypeError. -/
inductive RedisErrorKind : Type
  | TypeError : RedisErrorKind
  | ResponseError : RedisErrorKind
deriving DecidableEq

/-- An error value from the external redis driver: its kind plus its
to_string rendering. -/
structure RedisError where
  kind : RedisErrorKind
  text : String
deriving DecidableEq

/-- other_error from the source: wrap a displayable error as Error::Other of
its rendering. The embedding specialises it to the string already rendered. -/
def other_error (text : String) : Error :=
  Error.other text

/-- Outcome of the dial phase of establish_connection: Client::open can fail
to parse the address, get_async_connection can fail with a driver error, or
a live connection is obtained. -/
inductive DialResult : Type
  | parseError : DialResult
  | connectError : String → DialResult
  | ok : Connection → DialResult
deriving DecidableEq

/-- The OutboundRedis host component state: the loaded allow-list policy and
the connection table. -/
structure OutboundRedis where
  allowed_hosts : AllowedHostsConfig
  connections : Table Connection

/-- OutboundRedis::default: empty table of capacity 1024. The default policy
is the external configuration loader's concern; it stays abstract here as a
parameter. -/
def OutboundRedis.mkDefault (policy : AllowedHostsConfig) : OutboundRedis :=
  { allowed_hosts := policy, connections := Table.new Connection 1024 }

/-- OutboundRedis::is_address_allowed: check_url against the redis scheme. -/
def OutboundRedis.is_address_allowed (s : OutboundRedis)
    (address : String) : Bool :=
  check_url address ("redis") s.allowed_hosts

/-- OutboundRedis::establish_connection: parse/dial (oracle), then push into
the connection table; parse failure is InvalidAddress, dial failure is
Other, capacity failure is TooManyConnections. Returns the inner result plus
the new state. -/
def establish_connection (s : OutboundRedis) (dial : DialResult) :
    Except Error Nat × OutboundRedis :=
  match dial with
  | .parseError => (.error .invalidAddress, s)
  | .connectError msg => (.error (other_error msg), s)
  | .ok conn =>
    match s.connections.push conn with
    | none => (.error .tooManyConnections, s)
    | some (key, table) =>
      (.ok key, { s with connections := table })

/-- v2::HostConnection::open: allow-list check first; denial returns
InvalidAddress before any dial is attempted. -/
def v2open (s : OutboundRedis) (address : String) (dial : DialResult) :
    Except Error Nat × OutboundRedis :=
  if s.is_address_allowed address = false then
    (.error .invalidAddress, s)
  else
    establish_connection s dial

/-- OutboundRedis::get_conn: resolve a handle in the connection table;
a stale or foreign handle yields Error::Other with the source's message. -/
def get_conn (s : OutboundRedis) (connection : Nat) :
    Except Error Connection :=
  match s.connections.get? connection with
  | some conn => .ok conn
  | none => .error (Error.other ("could not find connection for resource"))

/-- v2::HostConnection::drop: remove the handle from the table (idempotent)
and return unit. -/
def v2drop (s : OutboundRedis) (connection : Nat) : OutboundRedis :=
  { s with connections := s.connections.remove connection }

/-- v2::HostConnection::publish: resolve the handle (wrapping a resolution
failure through other_error of its rendering, as the source's map_err does),
then the driver's publish reply (oracle), mapping driver errors to Other. -/
def v2publish (s : OutboundRedis) (connection : Nat) (channel : String)
    (payload : List Nat) (drv : Except RedisError Unit) :
    Except Error Unit :=
  match get_conn s connection with
  | .error e => .error (other_error e.message)
  | .ok _conn =>
    match drv with
    | .error e => .error (other_error e.text)
    | .ok _ => .ok ()

/-- v2::HostConnection::get: resolve the handle, then the driver's GET reply
(oracle): an optional byte value, driver errors mapped to Other. -/
def v2get (s : OutboundRedis) (connection : Nat) (key : String)
    (drv : Except RedisError (Option (List Nat))) :
    Except Error (Option (List Nat)) :=
  match get_conn s connection with
  | .error e => .error (other_error e.message)
  | .ok _conn =>
    match drv with
    | .error e => .error (other_error e.text)
    | .ok value => .ok value

/-- v2::HostConnection::set: resolve the handle, then the driver's SET reply
(oracle), driver errors mapped to Other. -/
def v2set (s : OutboundRedis) (connection : Nat) (key : String)
    (value : List Nat) (drv : Except RedisError Unit) :
    Except Error Unit :=
  match get_conn s connection with
  | .error e => .error (other_error e.message)
  | .ok _conn =>
    match drv with
    | .error e => .error (other_error e.text)
    | .ok _ => .ok ()

/-- v2::HostConnection::incr: resolve the handle, then call the driver's
incr primitive with the fixed step 1 (the oracle takes the step the code
passes); the driver's post-increment integer is returned unchanged. -/
def v2incr (s : OutboundRedis) (connection : Nat) (key : String)
    (drv : Int → Except RedisError Int) : Except Error Int :=
  match get_conn s connection with
  | .error e => .error (other_error e.message)
  | .ok _conn =>
    match drv 1 with
    | .error e => .error (other_error e.text)
    | .ok value => .ok value

/-- v2::HostConnection::del: resolve the handle, then the driver's DEL reply
(oracle): the removed count (u32, embedded as Nat), errors mapped to
Other. -/
def v2del (s : OutboundRedis) (connection : Nat) (keys : List String)
    (drv : Except RedisError Nat) : Except Error Nat :=
  match get_conn s connection with
  | .error e => .error (other_error e.message)
  | .ok _conn =>
    match drv with
    | .error e => .error (other_error e.text)
    | .ok value => .ok value

/-- v2::HostConnection::sadd: resolve the handle, then the driver's SADD
reply (oracle); a driver error of kind TypeError becomes Error::TypeError,
any other driver error becomes Other of its rendering. -/
def v2sadd (s : OutboundRedis) (connection : Nat) (key : String)
    (values : List String) (drv : Except RedisError Nat) :
    Except Error Nat :=
  match get_conn s connection with
  | .error e => .error (other_error e.message)
  | .ok _conn =>
    match drv with
    | .error e =>
      if e.kind = RedisErrorKind.TypeError then
        .error .typeError
      else
        .error (Error.other e.text)
    | .ok value => .ok value

/-- v2::HostConnection::smembers: resolve the handle, then the driver's
SMEMBERS reply (oracle), errors mapped to Other. -/
def v2smembers (s : OutboundRedis) (connection : Nat) (key : String)
    (drv : Except RedisError (List String)) : Except Error (List String) :=
  match get_conn s connection with
  | .error e => .error (other_error e.message)
  | .ok _conn =>
    match drv with
    | .error e => .error (other_error e.text)
    | .ok value => .ok value

/-- v2::HostConnection::srem: resolve the handle, then the driver's SREM
reply (oracle); unlike sadd, every driver error goes through other_error. -/
def v2srem (s : OutboundRedis) (connection : Nat) (key : String)
    (values : List String) (drv : Except RedisError Nat) :
    Except Error Nat :=
  match get_conn s connection with
  | .error e => .error (other_error e.message)
  | .ok _conn =>
    match drv with
    | .error e => .error (other_error e.text)
    | .ok value => .ok value

/-- v2::HostConnection::execute: resolve the handle (here the source
propagates the resolution error unwrapped), issue the raw command with its
arguments (oracle reply), and flatten the reply via from_redis_value. -/
def v2execute (s : OutboundRedis) (connection : Nat) (command : String)
    (arguments : List RedisParameter) (drv : Except RedisError Value) :
    Except Error (List RedisResult) :=
  match get_conn s connection with
  | .error e => .error e
  | .ok _conn =>
    match drv with
    | .error e => .error (other_error e.text)
    | .ok value => .ok (from_redis_value value)

/-- Modelled from the spec: the v1 legacy error (spin_world v1 redis Error,
not under src/); section 6: a single coarse variant for all failure
causes. -/
inductive V1Error : Type
  | error : V1Error
deriving DecidableEq

/-- The delegate! macro: allow-list check (coarse error on denial), then
establish_connection (coarse error on any open failure), then the
corresponding v2 operation on the fresh handle, its error collapsed to the
coarse variant. The handle is not removed afterwards. -/
def delegate {β : Type} (s : OutboundRedis) (address : String)
    (dial : DialResult) (op : OutboundRedis → Nat → Except Error β) :
    Except V1Error β × OutboundRedis :=
  if s.is_address_allowed address = false then
    (.error V1Error.error, s)
  else
    match establish_connection s dial with
    | (.error _, s1) => (.error V1Error.error, s1)
    | (.ok connection, s1) =>
      match op s1 connection with
      | .error _ => (.error V1Error.error, s1)
      | .ok v => (.ok v, s1)

/-- v1::Host::publish: delegate to the v2 publish. -/
def v1publish (s : OutboundRedis) (address channel : String)
    (payload : List Nat) (dial : DialResult)
    (drv : Except RedisError Unit) : Except V1Error Unit × OutboundRedis :=
  delegate s address dial (fun s1 c => v2publish s1 c channel payload drv)

/-- v1::Host::get: delegate to the v2 get, then unwrap_or_default: an absent
value becomes the empty byte sequence. -/
def v1get (s : OutboundRedis) (address key : String) (dial : DialResult)
    (drv : Except RedisError (Option (List Nat))) :
    Except V1Error (List Nat) × OutboundRedis :=
  let r := delegate s address dial (fun s1 c => v2get s1 c key drv)
  (r.fst.map (fun v => v.getD []), r.snd)

/-- v1::Host::set: delegate to the v2 set. -/
def v1set (s : OutboundRedis) (address key : String) (value : List Nat)
    (dial : DialResult) (drv : Except RedisError Unit) :
    Except V1Error Unit × OutboundRedis :=
  delegate s address dial (fun s1 c => v2set s1 c key value drv)

/-- v1::Host::incr: delegate to the v2 incr. -/
def v1incr (s : OutboundRedis) (address key : String) (dial : DialResult)
    (drv : Int → Except RedisError Int) :
    Except V1Error Int × OutboundRedis :=
  delegate s address dial (fun s1 c => v2incr s1 c key drv)

/-- v1::Host::del: delegate to the v2 del, count narrowed u32 -> i64. -/
def v1del (s : OutboundRedis) (address : String) (keys : List String)
    (dial : DialResult) (drv : Except RedisError Nat) :
    Except V1Error Int × OutboundRedis :=
  let r := delegate s address dial (fun s1 c => v2del s1 c keys drv)
  (r.fst.map (fun v => (v : Int)), r.snd)

/-- v1::Host::sadd: delegate to the v2 sadd, count narrowed u32 -> i64. -/
def v1sadd (s : OutboundRedis) (address key : String)
    (values : List String) (dial : DialResult)
    (drv : Except RedisError Nat) : Except V1Error Int × OutboundRedis :=
  let r := delegate s address dial (fun s1 c => v2sadd s1 c key values drv)
  (r.fst.map (fun v => (v : Int)), r.snd)

/-- v1::Host::smembers: delegate to the v2 smembers. -/
def v1smembers (s : OutboundRedis) (address key : String)
    (dial : DialResult) (drv : Except RedisError (List String)) :
    Except V1Error (List String) × OutboundRedis :=
  delegate s address dial (fun s1 c => v2smembers s1 c key drv)

/-- v1::Host::srem: delegate to the v2 srem, count narrowed u32 -> i64. -/
def v1srem (s : OutboundRedis) (address key : String)
    (values : List String) (dial : DialResult)
    (drv : Except RedisError Nat) : Except V1Error Int × OutboundRedis :=
  let r := delegate s address dial (fun s1 c => v2srem s1 c key values drv)
  (r.fst.map (fun v => (v : Int)), r.snd)

/-- Allow-all policy, for concrete scenarios. -/
def allowAll : AllowedHostsConfig := fun _ _ => true

/-- Deny-all policy, for concrete scenarios. -/
def denyAll : AllowedHostsConfig := fun _ _ => false

/-- Fresh component state (allow-all policy, empty table of capacity 1024). -/
def freshState : OutboundRedis :=
  ⟨allowAll, ⟨1024, []⟩⟩

/-- Component state holding one live connection under handle 0 in a
capacity-1024 table. -/
def oneLive : OutboundRedis :=
  ⟨allowAll, ⟨1024, [(0, 7)]⟩⟩

/-- Component state whose capacity-1 table is full. -/
def fullState : OutboundRedis :=
  ⟨allowAll, ⟨1, [(0, 5)]⟩⟩

end Spin

namespace Spin

/-- C4: the result normalizer is a depth-first walk: nil and Okay markers
contribute nothing, each scalar (integer, byte data, status string) appends
exactly one typed value, nested arrays recurse in order; a nil reply yields
the empty sequence, and the reply [1, [a-bytes, b-bytes], nil] yields
exactly [Int64 1, Binary a-bytes, Binary b-bytes]. -/
theorem C4_result_normalizer :
    (∀ vs, append vs Value.Nil = vs) ∧
    (∀ vs, append vs Value.Okay = vs) ∧
    (∀ vs v, append vs (Value.Int v) = vs ++ [RedisResult.Int64 v]) ∧
    (∀ vs b, append vs (Value.Data b) = vs ++ [RedisResult.Binary b]) ∧
    (∀ vs m, append vs (Value.Status m) = vs ++ [RedisResult.Status m]) ∧
    (∀ vs l, append vs (Value.Bulk l) = appendList vs l) ∧
    (∀ vs v rest, appendList vs (v :: rest) = appendList (append vs v) rest) ∧
    from_redis_value Value.Nil = [] ∧
    from_redis_value (Value.Bulk [Value.Int 1,
        Value.Bulk [Value.Data [97], Value.Data [98]], Value.Nil]) =
      [RedisResult.Int64 1, RedisResult.Binary [97],
        RedisResult.Binary [98]] :=
  ⟨fun _ => rfl, fun _ => rfl, fun _ _ => rfl, fun _ _ => rfl,
    fun _ _ => rfl, fun _ _ => rfl, fun _ _ _ => rfl, rfl, rfl⟩

/-- C9: the libsql column-value conversion is total over the five driver
variants and round-trips: converting typed values to the driver
representation (convert_parameters) and back (convert_value) is the
identity, and every driver value is the image of exactly the typed value
it converts to. -/
theorem C9_value_conversion_roundtrip :
    (∀ vs : List SqliteValue,
      (convert_parameters vs).map convert_value = vs) ∧
    (∀ w : LibsqlValue, convert_parameters [convert_value w] = [w]) := by
  constructor
  · intro vs
    induction vs with
    | nil => rfl
    | cons v t ih =>
      cases v <;> simpa [convert_parameters, convert_value] using ih
  · intro w
    cases w <;> rfl

/-- C2: for an address the allow-list denies, v2 open returns InvalidAddress
with the component state unchanged, and this holds for every dial outcome
(so no driver dial is consulted and no table slot is consumed). -/
theorem C2_denied_open (s : OutboundRedis) (address : String)
    (dial : DialResult) (h : s.is_address_allowed address = false) :
    v2open s address dial = (.error Error.invalidAddress, s) := by
  simp [v2open, h]

/-- Witness for C2 at a concrete deny-all state. -/
theorem C2_denied_open_witness :
    v2open ⟨denyAll, ⟨1024, []⟩⟩ ("redis://cache.example:6379")
        DialResult.parseError
      = (.error Error.invalidAddress, ⟨denyAll, ⟨1024, []⟩⟩) :=
  C2_denied_open _ _ _ rfl

/-- C3: the configured capacity is 1024; v2 open never pushes the live count
past capacity; when the table is full every open leaves the state unchanged;
and a full-table open that passes the allow-list and dials successfully
returns TooManyConnections. -/
theorem C3_capacity_bound :
    (∀ p, (OutboundRedis.mkDefault p).connections.capacity = 1024) ∧
    (∀ s addr dial,
      s.connections.entries.length ≤ s.connections.capacity →
      (v2open s addr dial).snd.connections.entries.length ≤
        s.connections.capacity) ∧
    (∀ s addr dial,
      s.connections.entries.length = s.connections.capacity →
      (v2open s addr dial).snd = s) ∧
    (∀ s addr c,
      s.connections.entries.length = s.connections.capacity →
      s.is_address_allowed addr = true →
      v2open s addr (DialResult.ok c)
        = (.error Error.tooManyConnections, s)) := by
  refine ⟨fun p => rfl, ?_, ?_, ?_⟩
  · intro s addr dial hle
    cases hA : s.is_address_allowed addr with
    | false => simpa [v2open, hA] using hle
    | true =>
      cases dial with
      | parseError => simpa [v2open, hA, establish_connection] using hle
      | connectError msg =>
        simpa [v2open, hA, establish_connection] using hle
      | ok c =>
        by_cases hfull :
            s.connections.entries.length = s.connections.capacity
        · simp [v2open, hA, establish_connection, Table.push, hfull]
        · simp [v2open, hA, establish_connection, Table.push, hfull]
          omega
  · intro s addr dial hfull
    cases hA : s.is_address_allowed addr with
    | false => simp [v2open, hA]
    | true =>
      cases dial with
      | parseError => simp [v2open, hA, establish_connection]
      | connectError msg => simp [v2open, hA, establish_connection]
      | ok c => simp [v2open, hA, establish_connection, Table.push, hfull]
  · intro s addr c hfull hA
    simp [v2open, hA, establish_connection, Table.push, hfull]

/-- Witness for C3 at a concrete full capacity-1 state. -/
theorem C3_capacity_bound_witness :
    v2open fullState ("redis://cache.example:6379") (DialResult.ok 9)
        = (.error Error.tooManyConnections, fullState) ∧
    (v2open fullState ("redis://cache.example:6379")
        (DialResult.ok 9)).snd.connections.entries.length ≤
      fullState.connections.capacity :=
  ⟨C3_capacity_bound.2.2.2 fullState _ 9 rfl rfl,
    C3_capacity_bound.2.1 fullState _ (DialResult.ok 9) (by decide)⟩

/-- After filtering out every pair keyed k, a find? by key k fails. -/
theorem find?_filter_ne {α : Type} (l : List (Nat × α)) (k : Nat) :
    (l.filter (fun e => e.fst != k)).find? (fun e => e.fst == k)
      = none := by
  induction l with
  | nil => rfl
  | cons a t ih =>
    by_cases hc : a.fst = k
    · simp [List.filter_cons, hc, ih]
    · simp [List.filter_cons, List.find?_cons, hc, ih]

/-- If find? by key k fails on a list, filtering out key k keeps the whole
list. -/
theorem filter_ne_of_find?_none {α : Type} (l : List (Nat × α)) (k : Nat)
    (hn : l.find? (fun e => e.fst == k) = none) :
    l.filter (fun e => e.fst != k) = l := by
  induction l with
  | nil => rfl
  | cons a t ih =>
    by_cases hc : a.fst = k
    · simp [List.find?_cons, hc] at hn
    · rw [List.find?_cons] at hn
      have hb : (a.fst == k) = false := by simp [hc]
      rw [hb] at hn
      simp [List.filter_cons, hc, ih hn]

/-- C1 (amended): after drop, the handle no longer resolves; drop on an
already-absent handle is a no-op; and every v2 operation on a non-resolving
handle returns the inline catch-all error Other carrying the source's
could-not-find-connection message — an operation error of the Other kind
(the v2 error vocabulary has no distinct NotFound), and never a panic or
abort (every operation is total and returns its error inline). -/
theorem C1_stale_handle_inline_other :
    (∀ s h, (v2drop s h).connections.get? h = none) ∧
    (∀ s h, s.connections.get? h = none → v2drop s h = s) ∧
    (∀ s h ch pay drv, s.connections.get? h = none →
      v2publish s h ch pay drv
        = .error (Error.other ("could not find connection for resource"))) ∧
    (∀ s h key drv, s.connections.get? h = none →
      v2get s h key drv
        = .error (Error.other ("could not find connection for resource"))) ∧
    (∀ s h key value drv, s.connections.get? h = none →
      v2set s h key value drv
        = .error (Error.other ("could not find connection for resource"))) ∧
    (∀ s h key drv, s.connections.get? h = none →
      v2incr s h key drv
        = .error (Error.other ("could not find connection for resource"))) ∧
    (∀ s h keys drv, s.connections.get? h = none →
      v2del s h keys drv
        = .error (Error.other ("could not find connection for resource"))) ∧
    (∀ s h key vals drv, s.connections.get? h = none →
      v2sadd s h key vals drv
        = .error (Error.other ("could not find connection for resource"))) ∧
    (∀ s h key drv, s.connections.get? h = none →
      v2smembers s h key drv
        = .error (Error.other ("could not find connection for resource"))) ∧
    (∀ s h key vals drv, s.connections.get? h = none →
      v2srem s h key vals drv
        = .error (Error.other ("could not find connection for resource"))) ∧
    (∀ s h cmd args drv, s.connections.get? h = none →
      v2execute s h cmd args drv
        = .error (Error.other ("could not find connection for resource"))) := by
  refine ⟨?_, ?_, ?_, ?_, ?_, ?_, ?_, ?_, ?_, ?_, ?_⟩
  · intro s h
    simp [v2drop, Table.remove, Table.get?, find?_filter_ne]
  · intro s h hn
    have hfind :
        s.connections.entries.find? (fun e => e.fst == h) = none := by
      unfold Table.get? at hn
      exact Option.map_eq_none'.mp hn
    unfold v2drop Table.remove
    rw [filter_ne_of_find?_none _ _ hfind]
  · intro s h ch pay drv hn
    simp [v2publish, get_conn, hn, other_error, Error.message]
  · intro s h key drv hn
    simp [v2get, get_conn, hn, other_error, Error.message]
  · intro s h key value drv hn
    simp [v2set, get_conn, hn, other_error, Error.message]
  · intro s h key drv hn
    simp [v2incr, get_conn, hn, other_error, Error.message]
  · intro s h keys drv hn
    simp [v2del, get_conn, hn, other_error, Error.message]
  · intro s h key vals drv hn
    simp [v2sadd, get_conn, hn, other_error, Error.message]
  · intro s h key drv hn
    simp [v2smembers, get_conn, hn, other_error, Error.message]
  · intro s h key vals drv hn
    simp [v2srem, get_conn, hn, other_error, Error.message]
  · intro s h cmd args drv hn
    simp [v2execute, get_conn, hn]

/-- C1 counterexample: in the concrete open-then-close scenario, the
subsequent get returns the Other catch-all carrying the source's message —
an Other-classified inline error, where the claim requires the distinct
NotFound kind, which the v2 error vocabulary does not contain. -/
theorem C1_stale_handle_counterexample :
    v2get (v2drop (v2open freshState ("redis://cache.example:6379")
        (DialResult.ok 7)).snd 0) 0 ("k") (.ok none)
      = .error (Error.other ("could not find connection for resource")) ∧
    Error.isOther
        (Error.other ("could not find connection for resource")) = true :=
  ⟨rfl, rfl⟩

/-- Witness for C1 at the concrete empty state. -/
theorem C1_stale_handle_inline_other_witness :
    freshState.connections.get? 0 = none ∧
    v2get freshState 0 ("k") (.ok none)
      = .error (Error.other ("could not find connection for resource")) :=
  ⟨rfl, C1_stale_handle_inline_other.2.2.2.1 freshState 0 ("k")
    (.ok none) rfl⟩

/-- C5 (amended): on a resolvable handle, v2 sadd maps a driver
type-mismatch error to the distinct TypeError and every other driver error
to Other; v2 srem maps every driver error — the type-mismatch kind
included — to Other of its rendering. -/
theorem C5_sadd_srem_type_error :
    (∀ s h key vals c e, s.connections.get? h = some c →
      e.kind = RedisErrorKind.TypeError →
      v2sadd s h key vals (.error e) = .error Error.typeError) ∧
    (∀ s h key vals c e, s.connections.get? h = some c →
      e.kind ≠ RedisErrorKind.TypeError →
      v2sadd s h key vals (.error e) = .error (Error.other e.text)) ∧
    (∀ s h key vals c e, s.connections.get? h = some c →
      v2srem s h key vals (.error e)
        = .error (Error.other e.text)) := by
  refine ⟨?_, ?_, ?_⟩
  · intro s h key vals c e hc hk
    simp [v2sadd, get_conn, hc, hk]
  · intro s h key vals c e hc hk
    simp [v2sadd, get_conn, hc, hk]
  · intro s h key vals c e hc
    simp [v2srem, get_conn, hc, other_error]

/-- C5 counterexample: srem on a live handle with a driver error of the
type-mismatch kind returns Other, not the distinct TypeError the claim
requires of both sadd and srem. -/
theorem C5_srem_counterexample :
    v2srem oneLive 0 ("k") [("a")]
        (.error ⟨RedisErrorKind.TypeError, ("WRONGTYPE")⟩)
      = .error (Error.other ("WRONGTYPE")) ∧
    Error.other ("WRONGTYPE") ≠ Error.typeError :=
  ⟨rfl, by decide⟩

/-- Witness for C5 at the concrete one-connection state. -/
theorem C5_sadd_srem_type_error_witness :
    oneLive.connections.get? 0 = some 7 ∧
    v2sadd oneLive 0 ("k") [("a")]
        (.error ⟨RedisErrorKind.TypeError, ("WRONGTYPE")⟩)
      = .error Error.typeError :=
  ⟨rfl, C5_sadd_srem_type_error.1 oneLive 0 ("k") [("a")] 7 _ rfl rfl⟩

/-- C6: with no driver error and the key absent, v2 get returns Ok none and
v1 get (whose transient open succeeded) returns the empty byte sequence;
neither reports the absence as an error. -/
theorem C6_missing_key :
    (∀ s h key c, s.connections.get? h = some c →
      v2get s h key (.ok none) = .ok none) ∧
    (∀ s addr key c, s.is_address_allowed addr = true →
      s.connections.entries.length ≠ s.connections.capacity →
      (v1get s addr key (DialResult.ok c) (.ok none)).fst = .ok []) := by
  constructor
  · intro s h key c hc
    simp [v2get, get_conn, hc]
  · intro s addr key c hA hne
    simp [v1get, delegate, hA, establish_connection, Table.push, hne,
      v2get, get_conn, Table.get?, List.find?_cons, Except.map]

/-- Witness for C6 at concrete states. -/
theorem C6_missing_key_witness :
    v2get oneLive 0 ("k") (.ok none) = .ok none ∧
    (v1get freshState ("redis://cache.example:6379") ("k")
        (DialResult.ok 7) (.ok none)).fst = .ok [] :=
  ⟨C6_missing_key.1 oneLive 0 ("k") 7 rfl,
    C6_missing_key.2 freshState _ ("k") 7 rfl (by decide)⟩

/-- C7: every v1 operation runs through delegate, and each failure cause —
allow-list denial, unparseable address, driver dial failure, table at
capacity, or any error from the delegated v2 operation — yields the single
coarse v1 error variant, with no distinction of cause. -/
theorem C7_v1_coarse_error :
    (∀ (β : Type) s addr dial (op : OutboundRedis → Nat → Except Error β),
      s.is_address_allowed addr = false →
      (delegate s addr dial op).fst = .error V1Error.error) ∧
    (∀ (β : Type) s addr (op : OutboundRedis → Nat → Except Error β),
      (delegate s addr DialResult.parseError op).fst
        = .error V1Error.error) ∧
    (∀ (β : Type) s addr msg (op : OutboundRedis → Nat → Except Error β),
      (delegate s addr (DialResult.connectError msg) op).fst
        = .error V1Error.error) ∧
    (∀ (β : Type) s addr c (op : OutboundRedis → Nat → Except Error β),
      s.connections.entries.length = s.connections.capacity →
      (delegate s addr (DialResult.ok c) op).fst = .error V1Error.error) ∧
    (∀ (β : Type) s addr dial (op : OutboundRedis → Nat → Except Error β)
      (e : Error), (∀ s1 h, op s1 h = .error e) →
      (delegate s addr dial op).fst = .error V1Error.error) := by
  refine ⟨?_, ?_, ?_, ?_, ?_⟩
  · intro β s addr dial op hA
    simp [delegate, hA]
  · intro β s addr op
    cases hA : s.is_address_allowed addr with
    | false => simp [delegate, hA]
    | true => simp [delegate, hA, establish_connection]
  · intro β s addr msg op
    cases hA : s.is_address_allowed addr with
    | false => simp [delegate, hA]
    | true => simp [delegate, hA, establish_connection]
  · intro β s addr c op hfull
    cases hA : s.is_address_allowed addr with
    | false => simp [delegate, hA]
    | true => simp [delegate, hA, establish_connection, Table.push, hfull]
  · intro β s addr dial op e hop
    cases hA : s.is_address_allowed addr with
    | false => simp [delegate, hA]
    | true =>
      cases dial with
      | parseError => simp [delegate, hA, establish_connection]
      | connectError msg => simp [delegate, hA, establish_connection]
      | ok c =>
        by_cases hfull :
            s.connections.entries.length = s.connections.capacity
        · simp [delegate, hA, establish_connection, Table.push, hfull]
        · simp [delegate, hA, establish_connection, Table.push, hfull,
            hop]

/-- Witness for C7: denial, full table, and a failing v2 operation, each at
a concrete state. -/
theorem C7_v1_coarse_error_witness :
    (delegate ⟨denyAll, ⟨1024, []⟩⟩ ("redis://a") DialResult.parseError
      (fun (s1 : OutboundRedis) (h : Nat) =>
        (.ok 0 : Except Error Nat))).fst = .error V1Error.error ∧
    (delegate fullState ("redis://a") (DialResult.ok 9)
      (fun (s1 : OutboundRedis) (h : Nat) =>
        (.ok 0 : Except Error Nat))).fst = .error V1Error.error ∧
    (delegate freshState ("redis://a") (DialResult.ok 9)
      (fun (s1 : OutboundRedis) (h : Nat) =>
        (.error Error.typeError : Except Error Nat))).fst
      = .error V1Error.error :=
  ⟨C7_v1_coarse_error.1 Nat _ _ _ _ rfl,
    C7_v1_coarse_error.2.2.2.1 Nat fullState _ 9 _ rfl,
    C7_v1_coarse_error.2.2.2.2 Nat freshState _ _ _ Error.typeError
      (fun _ _ => rfl)⟩

/-- C8: v2 incr consults the driver increment primitive at exactly the
default step 1 and returns the driver's post-increment integer unchanged;
the result depends on the driver only through its reply at step 1. -/
theorem C8_incr_step_one :
    (∀ s h key drv c v, s.connections.get? h = some c →
      drv 1 = .ok v → v2incr s h key drv = .ok v) ∧
    (∀ s h key drv drv', drv 1 = drv' 1 →
      v2incr s h key drv = v2incr s h key drv') := by
  constructor
  · intro s h key drv c v hc hv
    simp [v2incr, get_conn, hc, hv]
  · intro s h key drv drv' h1
    unfold v2incr
    rw [h1]

/-- Witness for C8 at the concrete one-connection state: the driver adds 41
to the step it is given, so the call returns 42. -/
theorem C8_incr_step_one_witness :
    (fun d => (.ok (d + 41) : Except RedisError Int)) 1 = .ok 42 ∧
    v2incr oneLive 0 ("counter")
        (fun d => (.ok (d + 41) : Except RedisError Int)) = .ok 42 :=
  ⟨rfl, C8_incr_step_one.1 oneLive 0 ("counter") _ 7 42 rfl rfl⟩

/-- C10: a successful v1 delegation leaves the transiently opened
connection live: the resulting table is the starting table with exactly one
new entry in front, so the live count grows by one; and once the table
holds capacity-many live connections, every further v1 call fails with the
coarse v1 error. -/
theorem C10_v1_leaves_connection :
    (∀ (β : Type) s addr dial (op : OutboundRedis → Nat → Except Error β)
      (v : β) (s1 : OutboundRedis),
      delegate s addr dial op = (.ok v, s1) →
      ∃ h c, s1.connections.entries = (h, c) :: s.connections.entries ∧
        s1.connections.entries.length
          = s.connections.entries.length + 1) ∧
    (∀ (β : Type) s addr dial (op : OutboundRedis → Nat → Except Error β),
      s.connections.entries.length = s.connections.capacity →
      (delegate s addr dial op).fst = .error V1Error.error) := by
  constructor
  · intro β s addr dial op v s1 hdel
    cases hA : s.is_address_allowed addr with
    | false => simp [delegate, hA] at hdel
    | true =>
      unfold delegate at hdel
      rw [hA] at hdel
      simp only [Bool.true_eq_false, if_false] at hdel
      rcases hest : establish_connection s dial with ⟨r, s2⟩
      rw [hest] at hdel
      cases r with
      | error e => simp at hdel
      | ok k =>
        dsimp only at hdel
        cases hop : op s2 k with
        | error e => rw [hop] at hdel; simp at hdel
        | ok v2 =>
          rw [hop] at hdel
          simp only [Prod.mk.injEq, Except.ok.injEq] at hdel
          obtain ⟨hv, hs⟩ := hdel
          subst hs
          cases dial with
          | parseError => simp [establish_connection] at hest
          | connectError msg => simp [establish_connection] at hest
          | ok c =>
            by_cases hfull :
                s.connections.entries.length = s.connections.capacity
            · simp [establish_connection, Table.push, hfull] at hest
            · simp only [establish_connection, Table.push, hfull,
                if_false, Prod.mk.injEq, Except.ok.injEq] at hest
              obtain ⟨hk, hs2⟩ := hest
              refine ⟨lowestFree s.connections.keys, c, ?_, ?_⟩
              · rw [← hs2]
              · rw [← hs2]
                simp
  · intro β s addr dial op hfull
    cases hA : s.is_address_allowed addr with
    | false => simp [delegate, hA]
    | true =>
      cases dial with
      | parseError => simp [delegate, hA, establish_connection]
      | connectError msg => simp [delegate, hA, establish_connection]
      | ok c => simp [delegate, hA, establish_connection, Table.push, hfull]

/-- Witness for C10: a successful concrete v1 delegation from the fresh
state ends in the one-connection state, and every v1 call on the full
state fails. -/
theorem C10_v1_leaves_connection_witness :
    (∃ h c, oneLive.connections.entries
        = (h, c) :: freshState.connections.entries ∧
      oneLive.connections.entries.length
        = freshState.connections.entries.length + 1) ∧
    (delegate fullState ("redis://a") (DialResult.ok 9)
      (fun (s1 : OutboundRedis) (h : Nat) =>
        (.ok () : Except Error Unit))).fst = .error V1Error.error :=
  ⟨C10_v1_leaves_connection.1 Unit freshState ("redis://a")
      (DialResult.ok 7) (fun _ _ => .ok ()) () oneLive rfl,
    C10_v1_leaves_connection.2 Unit fullState ("redis://a")
      (DialResult.ok 9) _ rfl⟩

end Spin

